import Mathlib

/-!
Verification of the `wasi-common/tokio` readiness-bridging adapter
(`crates/wasi-common/tokio/src/file.rs` and `net.rs`).

The two source files wrap already-opened OS handles (regular files, stdio
streams, TCP/Unix streams and listeners) into `WasiFile` resources.  Socket
kinds hold a persistent `tokio::io::unix::AsyncFd` registration created at
construction (`from_cap_std`); file/stdio kinds create a throwaway `AsyncFd`
inside every `readable`/`writable` call.

The embedding below translates those functions into pure Lean functions.
External effects (the reactor accepting or rejecting a registration, the OS
completing or failing a wait, the native transfer count of a read/write)
enter as explicit outcome parameters of type `Except IOError _`, mirroring
the `Result` values the source matches on.  The tokio `AsyncFd` registration
is modelled as a record carrying a registration identity and one readiness
flag per direction: per tokio's documented contract (relied on by `net.rs`,
which calls `guard.clear_ready()` explicitly), a completed wait records
readiness on the registration and does not clear it; only
`AsyncFdReadyGuard::clear_ready` does.
-/

namespace Wasi

/-- Subset of `std::io::ErrorKind` distinguished by the source: the file-kind
`readable`/`writable` match on `ErrorKind::PermissionDenied`; every other
kind is carried opaquely by `other` with its OS code. -/
inductive IOErrorKind where
  | permissionDenied
  | wouldBlock
  | other (code : Nat)
deriving DecidableEq, Repr

/-- Model of `std::io::Error`: an error kind plus an OS errno payload, so
that "propagated unchanged" is a statement about the whole value. -/
structure IOError where
  kind : IOErrorKind
  errno : Nat
deriving DecidableEq, Repr

/-- Subset of `wasi_common::Error` produced by the embedded functions:
`ioErr` is the `From<std::io::Error>` conversion applied by `?`,
`invalidArgument` is `Error::invalid_argument().context(msg)`,
`overflow` is the error produced when a native count fails the checked
`usize -> u64` conversion (`From<TryFromIntError>`), and `notSupported`
is the "unsupported for this kind" error of the spec. -/
inductive Error where
  | ioErr (e : IOError)
  | invalidArgument (context : String)
  | overflow
  | notSupported
deriving DecidableEq, Repr

/-- Diagnostic message attached by `set_fdflags` in net.rs line 84. -/
def msgNonblock : String := "cannot set anything else than NONBLOCK"

/-- Model of `wasi_common::file::FdFlags`: the WASI fd-flag bitset, one
Boolean per flag bit. -/
structure FdFlags where
  append : Bool
  dsync : Bool
  nonblock : Bool
  rsync : Bool
  fsync : Bool
deriving DecidableEq, Repr

/-- The `FdFlags::NONBLOCK` singleton bitset. -/
def FdFlags.NONBLOCK : FdFlags :=
  { append := false, dsync := false, nonblock := true, rsync := false, fsync := false }

/-- The empty `FdFlags` bitset. -/
def FdFlags.empty : FdFlags :=
  { append := false, dsync := false, nonblock := false, rsync := false, fsync := false }

/-- Model of the bitflags `is_empty` test: no bit is set. -/
def FdFlags.is_empty (f : FdFlags) : Bool := decide (f = FdFlags.empty)

/-- Model of `wasi_common::file::FileType` (the tags this layer uses). -/
inductive FileType where
  | unknown
  | characterDevice
  | regularFile
  | socketDgram
  | socketStream
deriving DecidableEq, Repr

/-- State of the underlying OS socket handle visible to this layer: its
blocking mode (toggled by `set_nonblocking`) and however many bytes the OS
has buffered for reading (never consulted by the adapter; present so that
theorems can quantify over it). -/
structure OsSocket where
  nonblocking : Bool
  bufferedBytes : Nat
deriving DecidableEq, Repr

/-- Effect of `set_nonblocking(b)` on the OS handle when the syscall
succeeds: the blocking mode becomes `b`. -/
def OsSocket.set_nonblocking (s : OsSocket) (b : Bool) : OsSocket :=
  { s with nonblocking := b }

/-- The external reactor as this layer observes it: a monotone counter of
registrations ever created, which also serves as the identity handed to the
next registration. -/
structure Reactor where
  created : Nat
deriving DecidableEq, Repr

/-- Model of `tokio::io::unix::AsyncFd<T>`: owns the inner handle, carries
the identity the reactor assigned at registration time and one recorded
readiness flag per direction. -/
structure AsyncFd (α : Type) where
  id : Nat
  inner : α
  readReady : Bool
  writeReady : Bool
deriving DecidableEq, Repr

/-- Model of `AsyncFd::new` / `AsyncFd::with_interest`: asks the reactor to
register the handle.  `regOutcome` is the reactor's verdict; on success a
fresh registration (readiness flags clear, next identity) is returned and
the reactor's creation counter advances, on failure the reactor is
untouched and the `io::Error` is returned. -/
def AsyncFd.new {α : Type} (inner : α) (r : Reactor) (regOutcome : Except IOError Unit) :
    Except IOError (AsyncFd α) × Reactor :=
  match regOutcome with
  | .ok () =>
      (.ok { id := r.created, inner := inner, readReady := false, writeReady := false },
       { created := r.created + 1 })
  | .error e => (.error e, r)

/-- Model of awaiting `AsyncFd::readable`: `waitOutcome` is how the wait
ends.  Per tokio's contract the future resolves once read readiness is
recorded on the registration, and resolving does not clear it. -/
def AsyncFd.waitReadable {α : Type} (a : AsyncFd α) (waitOutcome : Except IOError Unit) :
    Except IOError (AsyncFd α) :=
  match waitOutcome with
  | .ok () => .ok { a with readReady := true }
  | .error e => .error e

/-- Model of awaiting `AsyncFd::writable`; see `AsyncFd.waitReadable`. -/
def AsyncFd.waitWritable {α : Type} (a : AsyncFd α) (waitOutcome : Except IOError Unit) :
    Except IOError (AsyncFd α) :=
  match waitOutcome with
  | .ok () => .ok { a with writeReady := true }
  | .error e => .error e

/-- Model of `AsyncFdReadyGuard::clear_ready` for a guard obtained from
`readable()`: resets the recorded read readiness. -/
def AsyncFd.clearReadReady {α : Type} (a : AsyncFd α) : AsyncFd α :=
  { a with readReady := false }

/-- Model of `AsyncFdReadyGuard::clear_ready` for a guard obtained from
`writable()`: resets the recorded write readiness. -/
def AsyncFd.clearWriteReady {α : Type} (a : AsyncFd α) : AsyncFd α :=
  { a with writeReady := false }

/-- The four socket-kind resource types of net.rs.  The macro
`wasi_file_impl!` in net.rs generates one identical `WasiFile` impl for all
four, so the embedding carries the kind as a tag on one resource type. -/
inductive SockKind where
  | tcpListener
  | tcpStream
  | unixListener
  | unixStream
deriving DecidableEq, Repr

/-- A net.rs resource: `TcpListener(AsyncFd<...>)`, `TcpStream(AsyncFd<...>)`,
`UnixListener(AsyncFd<...>)` or `UnixStream(AsyncFd<...>)` — a kind tag plus
the `AsyncFd` wrapping the underlying OS socket. -/
structure SockResource where
  kind : SockKind
  afd : AsyncFd OsSocket
deriving DecidableEq, Repr

/-- Embedding of `TcpListener::from_inner` (net.rs lines 14-16). -/
def TcpListener.from_inner (afd : AsyncFd OsSocket) : SockResource :=
  { kind := SockKind.tcpListener, afd := afd }

/-- Embedding of `TcpListener::from_cap_std` (net.rs lines 17-19):
`Ok(Self::from_inner(AsyncFd::new(listener)?))` — registration happens here,
at construction. -/
def TcpListener.from_cap_std (sock : OsSocket) (r : Reactor)
    (regOutcome : Except IOError Unit) : Except IOError SockResource × Reactor :=
  match AsyncFd.new sock r regOutcome with
  | (.ok afd, r2) => (.ok (TcpListener.from_inner afd), r2)
  | (.error e, r2) => (.error e, r2)

/-- Embedding of `TcpStream::from_inner` (net.rs lines 25-27). -/
def TcpStream.from_inner (afd : AsyncFd OsSocket) : SockResource :=
  { kind := SockKind.tcpStream, afd := afd }

/-- Embedding of `TcpStream::from_cap_std` (net.rs lines 28-30). -/
def TcpStream.from_cap_std (sock : OsSocket) (r : Reactor)
    (regOutcome : Except IOError Unit) : Except IOError SockResource × Reactor :=
  match AsyncFd.new sock r regOutcome with
  | (.ok afd, r2) => (.ok (TcpStream.from_inner afd), r2)
  | (.error e, r2) => (.error e, r2)

/-- Embedding of `UnixListener::from_inner` (net.rs lines 38-40). -/
def UnixListener.from_inner (afd : AsyncFd OsSocket) : SockResource :=
  { kind := SockKind.unixListener, afd := afd }

/-- Embedding of `UnixListener::from_cap_std` (net.rs lines 41-43). -/
def UnixListener.from_cap_std (sock : OsSocket) (r : Reactor)
    (regOutcome : Except IOError Unit) : Except IOError SockResource × Reactor :=
  match AsyncFd.new sock r regOutcome with
  | (.ok afd, r2) => (.ok (UnixListener.from_inner afd), r2)
  | (.error e, r2) => (.error e, r2)

/-- Embedding of `UnixStream::from_inner` (net.rs lines 51-53). -/
def UnixStream.from_inner (afd : AsyncFd OsSocket) : SockResource :=
  { kind := SockKind.unixStream, afd := afd }

/-- Embedding of `UnixStream::from_cap_std` (net.rs lines 54-56). -/
def UnixStream.from_cap_std (sock : OsSocket) (r : Reactor)
    (regOutcome : Except IOError Unit) : Except IOError SockResource × Reactor :=
  match AsyncFd.new sock r regOutcome with
  | (.ok afd, r2) => (.ok (UnixStream.from_inner afd), r2)
  | (.error e, r2) => (.error e, r2)

/-- Embedding of `get_filetype` for the four net.rs kinds (net.rs lines
70-72): unconditionally `Ok(FileType::SocketStream)`. -/
def sockGet_filetype (_s : SockResource) : Except Error FileType :=
  .ok FileType.socketStream

/-- Modelled from the spec: `get_fd_flags` lives in `wasi-cap-std-sync`
(outside src/).  The spec describes `FdFlags` as "bit-flag set describing
blocking mode" and requires set-flags(non-blocking) → get-flags returns
non-blocking, set-flags(empty) → get-flags returns empty; so the model
reads the handle's blocking mode and maps non-blocking to the `NONBLOCK`
singleton and blocking to the empty set. -/
def get_fd_flags (s : OsSocket) : Except Error FdFlags :=
  .ok (if s.nonblocking then FdFlags.NONBLOCK else FdFlags.empty)

/-- Embedding of `get_fdflags` for the net.rs kinds (net.rs lines 73-76):
`let fdflags = get_fd_flags(&self.0.get_ref())?; Ok(fdflags)`. -/
def sockGet_fdflags (s : SockResource) : Except Error FdFlags :=
  match get_fd_flags s.afd.inner with
  | .ok f => .ok f
  | .error e => .error e

/-- Embedding of `set_fdflags` for the net.rs kinds (net.rs lines 77-88).
`nbOutcome` is the verdict of the underlying `set_nonblocking` syscall when
it is reached; on syscall failure the OS handle is unchanged.  Returns the
call's result together with the post-call resource so that the error
branches' effect on state is visible. -/
def sockSet_fdflags (s : SockResource) (fdflags : FdFlags)
    (nbOutcome : Except IOError Unit) : Except Error Unit × SockResource :=
  if fdflags = FdFlags.NONBLOCK then
    match nbOutcome with
    | .ok () => (.ok (), { s with afd := { s.afd with inner := s.afd.inner.set_nonblocking true } })
    | .error e => (.error (.ioErr e), s)
  else if fdflags.is_empty then
    match nbOutcome with
    | .ok () => (.ok (), { s with afd := { s.afd with inner := s.afd.inner.set_nonblocking false } })
    | .error e => (.error (.ioErr e), s)
  else
    (.error (.invalidArgument msgNonblock), s)

/-- Model of `usize::try_into::<u64>()` as applied by `?` in net.rs lines
101 and 112: the checked widening conversion succeeds exactly when the
native count fits in 64 bits, and otherwise surfaces as a reported
conversion error (wasi-common's `From<TryFromIntError>`), never a
truncated value. -/
def tryIntoU64 (n : Nat) : Except Error Nat :=
  if n < 2 ^ 64 then .ok n else .error .overflow

/-- Embedding of `read_vectored` for the net.rs kinds (net.rs lines 89-102):
`let n = Read::read_vectored(...)?; Ok(n.try_into()?)`.  `osResult` is the
native outcome of the OS read: an `io::Error` or the transferred byte count
as a `usize`. -/
def sockRead_vectored (_s : SockResource) (osResult : Except IOError Nat) :
    Except Error Nat :=
  match osResult with
  | .error e => .error (.ioErr e)
  | .ok n => tryIntoU64 n

/-- Embedding of `write_vectored` for the net.rs kinds (net.rs lines
103-113): `let n = Write::write_vectored(...)?; Ok(n.try_into()?)`. -/
def sockWrite_vectored (_s : SockResource) (osResult : Except IOError Nat) :
    Except Error Nat :=
  match osResult with
  | .error e => .error (.ioErr e)
  | .ok n => tryIntoU64 n

/-- Embedding of `num_ready_bytes` for the net.rs kinds (net.rs lines
114-116): unconditionally `Ok(1)`, ignoring the socket's state. -/
def sockNum_ready_bytes (_s : SockResource) : Except Error Nat :=
  .ok 1

/-- Embedding of `readable` for the net.rs kinds (net.rs lines 118-123):
`let mut guard = self.0.readable().await?; guard.clear_ready(); Ok(())`.
The wait reuses the construction-time registration; on success the guard's
recorded read readiness is cleared before returning. -/
def sockReadable (s : SockResource) (waitOutcome : Except IOError Unit) :
    Except Error SockResource :=
  match s.afd.waitReadable waitOutcome with
  | .ok afd2 => .ok { s with afd := afd2.clearReadReady }
  | .error e => .error (.ioErr e)

/-- Embedding of `writable` for the net.rs kinds (net.rs lines 125-130). -/
def sockWritable (s : SockResource) (waitOutcome : Except IOError Unit) :
    Except Error SockResource :=
  match s.afd.waitWritable waitOutcome with
  | .ok afd2 => .ok { s with afd := afd2.clearWriteReady }
  | .error e => .error (.ioErr e)

/-- What a file/stdio-kind `readable`/`writable` call leaves behind: the
call's result, the state of the per-call registration at the moment the
call returns (it is dropped right after; `none` when registration failed
and no registration was created), and the reactor afterwards. -/
structure FileWaitOut where
  result : Except Error Unit
  reg : Option (AsyncFd Nat)
  reactor : Reactor
deriving Repr

/-- Embedding of `readable` for the file/stdio kinds (file.rs lines
125-146), identical for `File`, `Stdin`, `Stdout` and `Stderr` via the
`wasi_file_impl!` macro.  A fresh `AsyncFd` is built from the raw fd with
`AsyncFd::with_interest(rawfd, Interest::READABLE)`; on `Ok` the wait is
awaited and its guard dropped (no `clear_ready`); an `Err` whose kind is
`PermissionDenied` is absorbed into `Ok(())`; any other `Err` is returned. -/
def fileReadable (rawfd : Nat) (r : Reactor) (regOutcome : Except IOError Unit)
    (waitOutcome : Except IOError Unit) : FileWaitOut :=
  match AsyncFd.new rawfd r regOutcome with
  | (.ok afd, r2) =>
      match afd.waitReadable waitOutcome with
      | .ok afd2 => { result := .ok (), reg := some afd2, reactor := r2 }
      | .error e => { result := .error (.ioErr e), reg := some afd, reactor := r2 }
  | (.error e, r2) =>
      if e.kind = IOErrorKind.permissionDenied then
        { result := .ok (), reg := none, reactor := r2 }
      else
        { result := .error (.ioErr e), reg := none, reactor := r2 }

/-- Embedding of `writable` for the file/stdio kinds (file.rs lines
148-170); mirror image of `fileReadable` with `Interest::WRITABLE`. -/
def fileWritable (rawfd : Nat) (r : Reactor) (regOutcome : Except IOError Unit)
    (waitOutcome : Except IOError Unit) : FileWaitOut :=
  match AsyncFd.new rawfd r regOutcome with
  | (.ok afd, r2) =>
      match afd.waitWritable waitOutcome with
      | .ok afd2 => { result := .ok (), reg := some afd2, reactor := r2 }
      | .error e => { result := .error (.ioErr e), reg := some afd, reactor := r2 }
  | (.error e, r2) =>
      if e.kind = IOErrorKind.permissionDenied then
        { result := .ok (), reg := none, reactor := r2 }
      else
        { result := .error (.ioErr e), reg := none, reactor := r2 }

/-- Embedding of `set_fdflags` for the file/stdio kinds (file.rs lines
69-71): full delegation to the underlying wasi-cap-std-sync
implementation, given here as the function `underlying`. -/
def fileSet_fdflags (underlying : FdFlags → Except Error Unit) (fdflags : FdFlags) :
    Except Error Unit :=
  underlying fdflags

/-- The eight resource kinds this layer exposes (file.rs: `File`, `Stdin`,
`Stdout`, `Stderr`; net.rs: the four socket kinds). -/
inductive ResourceKind where
  | file
  | stdinK
  | stdoutK
  | stderrK
  | tcpListener
  | tcpStream
  | unixListener
  | unixStream
deriving DecidableEq, Repr

/-- Whether the kind is a listener socket. -/
def ResourceKind.isListener : ResourceKind → Bool
  | .tcpListener => true
  | .unixListener => true
  | _ => false

/-- The stream kind a listener's accept produces. -/
def ResourceKind.streamKind : ResourceKind → SockKind
  | .unixListener => SockKind.unixStream
  | _ => SockKind.tcpStream

/-- Modelled from the spec: the `sock_accept` dispatch lives outside src/
(the `WasiFile` trait default in wasi-common and the wasi-cap-std-sync
implementations; net.rs adds no override and file.rs only delegates).  Per
the spec, accept is "valid only on listener-kind resources; produces a new
Resource of stream kind on success; on any other kind, fails with
unsupported".  `newSock` is the OS socket produced by the underlying
accept; the new resource wraps it as a stream-kind resource. -/
def acceptedResource (k : ResourceKind) (newSock : OsSocket) : SockResource :=
  { kind := k.streamKind,
    afd := { id := 0, inner := newSock, readReady := false, writeReady := false } }

/-- Modelled from the spec (continued): the accept dispatch itself. -/
def sock_accept (k : ResourceKind) (_fdflags : FdFlags) (newSock : OsSocket) :
    Except Error SockResource :=
  if k.isListener then .ok (acceptedResource k newSock)
  else .error .notSupported

/-!
Concrete sample values used by witness and counterexample theorems.
-/

/-- A blocking OS socket with an empty receive buffer. -/
def osSockBlocking : OsSocket := { nonblocking := false, bufferedBytes := 0 }

/-- A concrete stream-socket resource in its freshly constructed state. -/
def sampleSock : SockResource :=
  { kind := SockKind.tcpStream,
    afd := { id := 0, inner := osSockBlocking, readReady := false, writeReady := false } }

/-- A flag set that is neither `NONBLOCK` nor empty (the `APPEND` bit). -/
def fdflagsAppend : FdFlags :=
  { append := true, dsync := false, nonblock := false, rsync := false, fsync := false }

/-!
Theorems settling the claims.
-/

/-- C1: for every socket-kind resource (TCP stream, TCP listener, Unix
stream, Unix listener — every `SockResource`, whatever its kind tag and
whatever the state of the underlying socket, including its buffered byte
count), `num_ready_bytes` returns `Ok(1)`: it is a total, non-suspending
function whose result never fails and never depends on the actual buffered
byte count. -/
theorem sock_num_ready_bytes_always_one (s : SockResource) :
    sockNum_ready_bytes s = .ok 1 := rfl

/-- C2: for the file/stdio kinds, `readable` and `writable` handle reactor
registration as follows: a registration failure of permission-denied kind
is absorbed into an immediate `Ok(())` (whatever the wait would have done);
a registration failure of any other kind is propagated unchanged; and that
absorption is the only one — an error from the wait itself is propagated
unchanged, and success otherwise arises only from a completed wait. -/
theorem file_readiness_registration_error_policy (rawfd : Nat) (r : Reactor)
    (e : IOError) (w : Except IOError Unit) :
    (e.kind = IOErrorKind.permissionDenied →
      (fileReadable rawfd r (.error e) w).result = .ok () ∧
      (fileWritable rawfd r (.error e) w).result = .ok ()) ∧
    (e.kind ≠ IOErrorKind.permissionDenied →
      (fileReadable rawfd r (.error e) w).result = .error (.ioErr e) ∧
      (fileWritable rawfd r (.error e) w).result = .error (.ioErr e)) ∧
    ((fileReadable rawfd r (.ok ()) (.error e)).result = .error (.ioErr e) ∧
      (fileWritable rawfd r (.ok ()) (.error e)).result = .error (.ioErr e)) ∧
    ((fileReadable rawfd r (.ok ()) (.ok ())).result = .ok () ∧
      (fileWritable rawfd r (.ok ()) (.ok ())).result = .ok ()) := by
  refine ⟨fun h => ?_, fun h => ?_, ⟨rfl, rfl⟩, ⟨rfl, rfl⟩⟩
  · constructor <;> simp [fileReadable, fileWritable, AsyncFd.new, h]
  · constructor <;> simp [fileReadable, fileWritable, AsyncFd.new, h]

/-- Witness for C2's theorem: at fd 3 and a fresh reactor, a
permission-denied registration failure is absorbed into success and an
`EACCES`-unlike failure (kind `other 13`) is propagated unchanged. -/
theorem file_readiness_registration_error_policy_witness :
    (fileReadable 3 { created := 0 }
      (.error { kind := .permissionDenied, errno := 1 }) (.ok ())).result = .ok () ∧
    (fileReadable 3 { created := 0 }
      (.error { kind := .other 13, errno := 13 }) (.ok ())).result
      = .error (.ioErr { kind := .other 13, errno := 13 }) :=
  ⟨((file_readiness_registration_error_policy 3 { created := 0 }
      { kind := .permissionDenied, errno := 1 } (.ok ())).1 rfl).1,
   ((file_readiness_registration_error_policy 3 { created := 0 }
      { kind := .other 13, errno := 13 } (.ok ())).2.1 (by decide)).1⟩

/-- Counterexample to C3 as stated ("for every resource kind ... the
readiness flag on the registration is cleared before the call returns"):
on a file/stdio-kind resource, a `readable` call whose registration and
wait both succeed returns `Ok(())` while the readiness flag recorded on
its registration is still set at the moment of return — file.rs drops the
guard without `clear_ready`, so no clearing happens for this kind. -/
theorem file_readable_leaves_flag_set :
    (fileReadable 3 { created := 0 } (.ok ()) (.ok ())).result = .ok () ∧
    ((fileReadable 3 { created := 0 } (.ok ()) (.ok ())).reg.map
      (fun a => a.readReady)) = some true :=
  ⟨rfl, rfl⟩

/-- C3 amended: for socket-kind resources and both directions, after a
successful readiness wait the corresponding readiness flag is cleared
before the call returns; file/stdio-kind resources do not clear the flag
but instead use a freshly created registration on every call (its identity
is the reactor's next one and its readiness flags start clear), so a
subsequent call is still not satisfied by a flag left by a previous
event. -/
theorem readiness_flag_clearing_by_kind (s : SockResource) (rawfd : Nat)
    (r : Reactor) (w : Except IOError Unit) :
    (∃ s2, sockReadable s (.ok ()) = .ok s2 ∧ s2.afd.readReady = false) ∧
    (∃ s2, sockWritable s (.ok ()) = .ok s2 ∧ s2.afd.writeReady = false) ∧
    ((fileReadable rawfd r (.ok ()) w).reg.map (fun a => a.id) = some r.created ∧
      (fileWritable rawfd r (.ok ()) w).reg.map (fun a => a.id) = some r.created) ∧
    (∀ (fd : Nat), (AsyncFd.new fd r (.ok ())).1 =
      .ok { id := r.created, inner := fd, readReady := false, writeReady := false }) := by
  refine ⟨⟨_, rfl, rfl⟩, ⟨_, rfl, rfl⟩, ?_, fun fd => rfl⟩
  cases w with
  | ok u => exact ⟨rfl, rfl⟩
  | error e => exact ⟨rfl, rfl⟩

/-- C4: for socket-kind resources, when the underlying `set_nonblocking`
syscall succeeds, `set_fdflags(flags)` succeeds exactly when `flags` is the
`NONBLOCK` singleton or the empty set; for every other flag value it fails
with the invalid-argument error carrying the diagnostic message, whatever
the syscall would have answered; and for file kinds `set_fdflags` is full
delegation to the underlying library. -/
theorem set_fdflags_validation (s : SockResource) (flags : FdFlags)
    (u : FdFlags → Except Error Unit) (nb : Except IOError Unit) :
    ((sockSet_fdflags s flags (.ok ())).1 = .ok () ↔
      (flags = FdFlags.NONBLOCK ∨ flags.is_empty = true)) ∧
    (flags ≠ FdFlags.NONBLOCK → flags.is_empty = false →
      sockSet_fdflags s flags nb = (.error (.invalidArgument msgNonblock), s)) ∧
    fileSet_fdflags u flags = u flags := by
  refine ⟨?_, fun h1 h2 => ?_, rfl⟩
  · by_cases h1 : flags = FdFlags.NONBLOCK
    · simp [sockSet_fdflags, h1]
    · by_cases h2 : flags.is_empty
      · simp [sockSet_fdflags, h1, h2]
      · simp [sockSet_fdflags, h1, h2]
  · simp [sockSet_fdflags, h1, h2]

/-- Witness for C4's theorem: on a concrete socket resource, setting the
`APPEND` flag (neither `NONBLOCK` nor empty) fails with the
invalid-argument diagnostic and a successful-`NONBLOCK` call succeeds. -/
theorem set_fdflags_validation_witness :
    sockSet_fdflags sampleSock fdflagsAppend (.ok ()) =
      (.error (.invalidArgument msgNonblock), sampleSock) ∧
    (sockSet_fdflags sampleSock FdFlags.NONBLOCK (.ok ())).1 = .ok () :=
  ⟨(set_fdflags_validation sampleSock fdflagsAppend (fun _ => .ok ()) (.ok ())).2.1
      (by decide) (by decide),
   ((set_fdflags_validation sampleSock FdFlags.NONBLOCK (fun _ => .ok ()) (.ok ())).1).mpr
      (Or.inl rfl)⟩

/-- C5: `sock_accept` fails with the unsupported error on every
non-listener kind, and on a listener kind it succeeds with a new resource
whose `get_filetype` answers the socket-stream tag. -/
theorem sock_accept_kind_policy (k : ResourceKind) (fdflags : FdFlags)
    (newSock : OsSocket) :
    (k.isListener = false → sock_accept k fdflags newSock = .error .notSupported) ∧
    (k.isListener = true → ∃ s, sock_accept k fdflags newSock = .ok s ∧
      sockGet_filetype s = .ok FileType.socketStream) := by
  refine ⟨fun h => ?_, fun h => ?_⟩
  · simp [sock_accept, h]
  · exact ⟨acceptedResource k newSock, by simp [sock_accept, h], rfl⟩

/-- Witness for C5's theorem: accept on a concrete TCP stream resource is
unsupported, and accept on a concrete TCP listener yields a resource of
socket-stream file type. -/
theorem sock_accept_kind_policy_witness :
    sock_accept ResourceKind.tcpStream FdFlags.empty osSockBlocking = .error .notSupported ∧
    (∃ s, sock_accept ResourceKind.tcpListener FdFlags.empty osSockBlocking = .ok s ∧
      sockGet_filetype s = .ok FileType.socketStream) :=
  ⟨(sock_accept_kind_policy ResourceKind.tcpStream FdFlags.empty osSockBlocking).1 rfl,
   (sock_accept_kind_policy ResourceKind.tcpListener FdFlags.empty osSockBlocking).2 rfl⟩

/-- Helper: the checked conversion returns a representable count as is. -/
theorem tryIntoU64_lt {n : Nat} (h : n < 2 ^ 64) : tryIntoU64 n = .ok n := by
  unfold tryIntoU64
  exact if_pos h

/-- Helper: the checked conversion reports an unrepresentable count. -/
theorem tryIntoU64_ge {n : Nat} (h : 2 ^ 64 ≤ n) : tryIntoU64 n = .error .overflow := by
  unfold tryIntoU64
  exact if_neg (Nat.not_lt.mpr h)

/-- C6: for socket-kind resources, `read_vectored` and `write_vectored`
return the native transfer count through the checked widening conversion:
a representable count (below `2 ^ 64`) is returned unchanged, an
unrepresentable one yields the reported conversion error (never a wrapped
or truncated count), and a native I/O error is propagated unchanged. -/
theorem vectored_count_conversion_checked (s : SockResource) (n : Nat) (e : IOError) :
    (n < 2 ^ 64 →
      sockRead_vectored s (.ok n) = .ok n ∧ sockWrite_vectored s (.ok n) = .ok n) ∧
    (2 ^ 64 ≤ n →
      sockRead_vectored s (.ok n) = .error .overflow ∧
      sockWrite_vectored s (.ok n) = .error .overflow) ∧
    (sockRead_vectored s (.error e) = .error (.ioErr e) ∧
      sockWrite_vectored s (.error e) = .error (.ioErr e)) := by
  refine ⟨fun h => ?_, fun h => ?_, rfl, rfl⟩
  · exact ⟨tryIntoU64_lt h, tryIntoU64_lt h⟩
  · exact ⟨tryIntoU64_ge h, tryIntoU64_ge h⟩

/-- Witness for C6's theorem: a transfer count of 5 is returned exactly and
a transfer count of `2 ^ 64` is a reported conversion failure. -/
theorem vectored_count_conversion_checked_witness :
    sockRead_vectored sampleSock (.ok 5) = .ok 5 ∧
    sockRead_vectored sampleSock (.ok (2 ^ 64)) = .error .overflow :=
  ⟨((vectored_count_conversion_checked sampleSock 5
      { kind := .wouldBlock, errno := 11 }).1 (by norm_num)).1,
   ((vectored_count_conversion_checked sampleSock (2 ^ 64)
      { kind := .wouldBlock, errno := 11 }).2.1 (Nat.le_refl _)).1⟩

/-- Counterexample to C7 as stated ("the readiness registration ... is not
created at resource construction time"): constructing a `TcpListener` from
a concrete socket against a fresh reactor succeeds and already leaves the
reactor's created-registration count at 1 — `from_cap_std` runs
`AsyncFd::new` before any `readable`/`writable` call is made. -/
theorem registration_created_at_construction :
    (∃ s, (TcpListener.from_cap_std osSockBlocking { created := 0 } (.ok ())).1 = .ok s) ∧
    (TcpListener.from_cap_std osSockBlocking { created := 0 } (.ok ())).2.created = 1 :=
  ⟨⟨_, rfl⟩, rfl⟩

/-- C7 amended: for the four socket kinds the readiness registration is
created eagerly at construction time (`AsyncFd::new` inside
`from_cap_std`) and successful `readable`/`writable` calls reuse that same
registration (same identity, no new one created); for the file/stdio kinds
a fresh registration is created on every `readable`/`writable` call. -/
theorem registration_lifecycle_by_kind (sock : OsSocket) (r : Reactor)
    (s : SockResource) (rawfd : Nat) (w : Except IOError Unit) :
    ((TcpListener.from_cap_std sock r (.ok ())).2.created = r.created + 1 ∧
      (TcpStream.from_cap_std sock r (.ok ())).2.created = r.created + 1 ∧
      (UnixListener.from_cap_std sock r (.ok ())).2.created = r.created + 1 ∧
      (UnixStream.from_cap_std sock r (.ok ())).2.created = r.created + 1) ∧
    (∃ s2, sockReadable s (.ok ()) = .ok s2 ∧ s2.afd.id = s.afd.id) ∧
    (∃ s2, sockWritable s (.ok ()) = .ok s2 ∧ s2.afd.id = s.afd.id) ∧
    ((fileReadable rawfd r (.ok ()) w).reactor.created = r.created + 1 ∧
      (fileWritable rawfd r (.ok ()) w).reactor.created = r.created + 1) := by
  refine ⟨⟨rfl, rfl, rfl, rfl⟩, ⟨_, rfl, rfl⟩, ⟨_, rfl, rfl⟩, ?_⟩
  cases w with
  | ok u => exact ⟨rfl, rfl⟩
  | error e => exact ⟨rfl, rfl⟩

/-- C8: for every socket-kind resource, `set_fdflags` followed by
`get_fdflags` round-trips: a successful `set_fdflags(NONBLOCK)` makes
`get_fdflags` answer `NONBLOCK`, and a successful `set_fdflags(empty)`
makes it answer the empty set. -/
theorem sock_set_get_fdflags_roundtrip (s : SockResource) :
    (∃ s2, sockSet_fdflags s FdFlags.NONBLOCK (.ok ()) = (.ok (), s2) ∧
      sockGet_fdflags s2 = .ok FdFlags.NONBLOCK) ∧
    (∃ s2, sockSet_fdflags s FdFlags.empty (.ok ()) = (.ok (), s2) ∧
      sockGet_fdflags s2 = .ok FdFlags.empty) := by
  exact ⟨⟨_, rfl, rfl⟩, ⟨_, rfl, rfl⟩⟩

/-- C9: for every socket-kind resource, when `set_fdflags` takes the
invalid-argument branch (any flags other than `NONBLOCK` or empty), the
resource — in particular the OS handle's blocking mode — is left exactly
as it was: the error is returned before any mutating call. -/
theorem set_fdflags_invalid_leaves_state (s : SockResource) (flags : FdFlags)
    (nb : Except IOError Unit) (h1 : flags ≠ FdFlags.NONBLOCK)
    (h2 : flags.is_empty = false) :
    (sockSet_fdflags s flags nb).1 = .error (.invalidArgument msgNonblock) ∧
    (sockSet_fdflags s flags nb).2 = s ∧
    (sockSet_fdflags s flags nb).2.afd.inner.nonblocking = s.afd.inner.nonblocking := by
  simp [sockSet_fdflags, h1, h2]

/-- Witness for C9's theorem: rejecting the `APPEND` flag set on a concrete
socket resource leaves the resource untouched. -/
theorem set_fdflags_invalid_leaves_state_witness :
    (sockSet_fdflags sampleSock fdflagsAppend (.ok ())).2 = sampleSock :=
  (set_fdflags_invalid_leaves_state sampleSock fdflagsAppend (.ok ())
    (by decide) (by decide)).2.1

/-- C10: for every socket-kind resource and both directions, the
permission-denied always-ready fallback is never applied: a wait that ends
in an error — of any kind, permission-denied included — has that error
propagated unchanged, and the call succeeds exactly when the readiness
wait itself completes. -/
theorem sock_readiness_no_eperm_fallback (s : SockResource) (e : IOError) :
    sockReadable s (.error e) = .error (.ioErr e) ∧
    sockWritable s (.error e) = .error (.ioErr e) ∧
    (∃ s2, sockReadable s (.ok ()) = .ok s2) ∧
    (∃ s2, sockWritable s (.ok ()) = .ok s2) :=
  ⟨rfl, rfl, ⟨_, rfl⟩, ⟨_, rfl⟩⟩

end Wasi
